import Mathlib

/-!
Verification of the cookiecutter template-verification pipeline implemented by
the `test_cookiecutter` session of `noxfile.py`.

The pipeline is embedded shallowly: pure path computations (`os.path.basename`,
`os.path.dirname`, `str.replace`) become Lean functions on character lists; the
filesystem facts the script consults (`os.path.exists`, `os.path.isfile`), the
exit status of every external command it spawns, the generated manifest's
contents and the directory scan produced by `glob.glob` are collected in an
environment record `Env`; the run itself is a function from `Env` to the list
of subprocess invocations performed (in order) together with the final outcome
and the state of the generated project's manifest files.
-/

namespace CookiecutterPipeline

/-- Does `pat` occur as a contiguous sublist of the argument?  Used to talk
about occurrences of a pattern (such as `.json` or `singer-sdk =`) inside a
string's character list. -/
def hasSub (pat : List Char) : List Char → Bool
  | [] => pat.isEmpty
  | c :: cs => pat.isPrefixOf (c :: cs) || hasSub pat cs

/-- Character list of the pattern `.json` removed by
`os.path.basename(args[1]).replace(".json", "")` in the source. -/
def jsonChars : List Char := ['.', 'j', 's', 'o', 'n']

/-- Worker for `stripJson`, structurally recursive on a step counter (one
step per character inspected; `l.length` steps always suffice, since each
step consumes at least one character). -/
def stripJsonGo : Nat → List Char → List Char
  | 0, l => l
  | _ + 1, [] => []
  | fuel + 1, c :: cs =>
    if jsonChars.isPrefixOf (c :: cs) then stripJsonGo fuel (cs.drop 4)
    else c :: stripJsonGo fuel cs

/-- Embedding of Python's `str.replace(".json", "")`: every non-overlapping
occurrence of `.json` is removed, scanning left to right. -/
def stripJson (l : List Char) : List Char :=
  stripJsonGo l.length l

/-- Embedding of `os.path.basename`: the part of the path after the last
slash (the whole string when it holds no slash). -/
def basenameChars (l : List Char) : List Char :=
  (l.reverse.takeWhile (fun c => c ≠ '/')).reverse

/-- String-level `os.path.basename`. -/
def basenameStr (s : String) : String :=
  String.mk (basenameChars s.toList)

/-- Embedding of `os.path.dirname` (posixpath): the part before the last
slash, with trailing slashes stripped unless the result is all slashes. -/
def dirnameChars (l : List Char) : List Char :=
  if l.contains '/' then
    let base := (l.reverse.takeWhile (fun c => c ≠ '/')).reverse
    let head := l.take (l.length - base.length)
    if head.all (fun c => c = '/') then head
    else (head.reverse.dropWhile (fun c => c = '/')).reverse
  else []

/-- String-level `os.path.dirname`. -/
def dirname (s : String) : String :=
  String.mk (dirnameChars s.toList)

/-- The fixed build root, `cc_build_path = "/tmp"` in the source. -/
def ccBuildPath : String := "/tmp"

/-- Embedding of `cc_output_dir = os.path.basename(args[1]).replace(".json", "")`:
the name of the generated project's directory, derived from the second
positional argument. -/
def outputName (arg : String) : String :=
  String.mk (stripJson (basenameChars arg.toList))

/-- Embedding of `cc_test_output = cc_build_path + "/" + cc_output_dir`. -/
def generatedProjectPath (arg : String) : String :=
  ccBuildPath ++ "/" ++ outputName arg

/-- Modelled from the spec's words (for comparison with `outputName`): the
base name with only a trailing `.json` suffix removed, as claim C5 reads the
derivation.  `outputName` above is the translation of the source. -/
def stripTrailingJsonSpec (s : String) : String :=
  if jsonChars.isSuffixOf s.toList then String.mk (s.toList.take (s.toList.length - 5))
  else s

/-- Character list of the marker matched by the sed program
`s|singer-sdk =.*|...|` run through `pythonsed` in the source: the regular
expression is the literal `singer-sdk =` followed by `.*`, which consumes the
rest of the line. -/
def markerChars : List Char :=
  ['s', 'i', 'n', 'g', 'e', 'r', '-', 's', 'd', 'k', ' ', '=']

/-- The sed replacement text: in the source it is
`"singer-sdk = \x7b path = \"" + sdk_dir + "\", develop = true \x7d"`
(sed unescapes the backslash-brace pairs to plain braces). -/
def declChars (sdkDir : String) : List Char :=
  ("singer-sdk = \x7b path = \"" ++ sdkDir ++ "\", develop = true \x7d").toList

/-- One sed `s|singer-sdk =.*|REPL|` substitution on a single line: at the
first occurrence of the marker the match extends to the end of the line (the
`.*`), so everything from the marker on is replaced by `rep`; a line without
the marker is left unchanged. -/
def sedDropAfter (rep : List Char) : List Char → List Char
  | [] => []
  | c :: cs =>
    if markerChars.isPrefixOf (c :: cs) then rep
    else c :: sedDropAfter rep cs

/-- The sed substitution applied to one manifest line, with the replacement
built from `sdkDir`. -/
def sedLine (sdkDir : String) (line : String) : String :=
  String.mk (sedDropAfter (declChars sdkDir) line.toList)

/-- Embedding of the `pythonsed -i.bak s|singer-sdk =.*|...| pyproject.toml`
invocation's effect on the manifest's lines: sed applies the substitution to
every line.  (sed exits 0 whether or not any line matched.) -/
def patchManifest (sdkDir : String) (m : List String) : List String :=
  m.map (sedLine sdkDir)

/-- Whitespace stripped by Python's `int` before parsing. -/
def isSpaceChar (c : Char) : Bool :=
  c = ' ' || c = '\t' || c = '\n' || c = '\r' || c = '\x0b' || c = '\x0c'

/-- Embedding of Python's `int(str)` as used on `args[2]`: strip surrounding
whitespace, accept an optional sign followed by a non-empty digit string,
and fail (`ValueError`, here `none`) otherwise.  (Underscore digit
separators, which the pipeline never passes, are not modelled.) -/
def pyInt (s : String) : Option Int :=
  let l := ((s.toList.dropWhile isSpaceChar).reverse.dropWhile isSpaceChar).reverse
  let signAndDigits : Int × List Char :=
    match l with
    | '+' :: t => (1, t)
    | '-' :: t => (-1, t)
    | t => (1, t)
  let ds := signAndDigits.2
  if ds = [] || !ds.all (fun c => c.isDigit) then none
  else some (signAndDigits.1 * (ds.foldl (fun a c => a * 10 + (c.toNat - 48)) 0 : Nat))

/-- An immediate child of the generated project directory as enumerated by
`glob.glob(f'{os.getcwd()}/*')`, in enumeration order.  The kind is recorded
because the scan returns files as well as directories; the script never
consults it. -/
structure DirEntry where
  name : String
  isDir : Bool
deriving DecidableEq

/-- The test applied to each scanned entry:
`os.path.basename(path).startswith("tap") or
 os.path.basename(path).startswith("target")`. -/
def matchesLibName (n : String) : Bool :=
  List.isPrefixOf "tap".toList n.toList || List.isPrefixOf "target".toList n.toList

/-- Embedding of the discovery loop
`for path in glob.glob(...): if ...startswith...: library_name = basename`:
the variable ends up holding the last matching entry's name, and stays unset
(`none`, a `NameError` at first use) when nothing matches. -/
def discoverLibrary (es : List DirEntry) : Option String :=
  es.foldl (fun acc e => if matchesLibName e.name then some e.name else acc) none

/-- One external command spawned by the session, in the order the script
issues them. -/
inductive Step where
  | rmOutput
  | installSdk
  | installDeps
  | runCookiecutter
  | runPatch
  | runLock
  | runInstall
  | runTool (name : String)
  | runLint
deriving DecidableEq

/-- Recognizer for the four quality-gate tool invocations. -/
def isQualityTool : Step → Bool
  | Step.runTool _ => true
  | _ => false

/-- How a run of the session ends.  `usageError` is the `print(...)` followed
by `return 0` taken on bad inputs; `commandFailed` is nox aborting the
session when a spawned command exits non-zero; `nameError` is the unbound
`library_name` when discovery matched nothing; `valueError` is `int(args[2])`
failing to parse. -/
inductive Outcome where
  | usageError (msg : String)
  | commandFailed (cmd : String) (exitCode : Nat)
  | nameError
  | valueError
  | success
deriving DecidableEq

/-- Does the nox session as a whole report failure (non-zero status)?  The
`usageError` branches `print` and `return 0`, so the session still passes. -/
def sessionFailed : Outcome → Bool
  | Outcome.usageError _ => false
  | Outcome.success => false
  | _ => true

/-- Recognizer for the usage-error outcomes. -/
def isUsageOutcome : Outcome → Bool
  | Outcome.usageError _ => true
  | _ => false

/-- Everything outside the script that determines one run: the positional
arguments, the filesystem facts the script reads, the exit status of each
external command it may spawn, the generated manifest's lines, and the
directory scan of the generated project.  `templateIsDir` records whether the
template path is a directory; the script itself only ever calls
`os.path.exists` on it.  `tapTemplateAbs` is the value `os.path.abspath`
returns for `args[0]` (absolute-path resolution happens outside the
script). -/
structure Env where
  posargs : List String
  templateExists : Bool
  templateIsDir : Bool
  replayIsFile : Bool
  outputExists : Bool
  tapTemplateAbs : String
  rmExit : Nat
  installSdkExit : Nat
  installDepsExit : Nat
  cookiecutterExit : Nat
  lockExit : Nat
  installExit : Nat
  manifest : List String
  entries : List DirEntry
  blackExit : Nat
  isortExit : Nat
  flake8Exit : Nat
  mypyExit : Nat
  toxExit : Nat
deriving DecidableEq

/-- The default arguments substituted by `args = session.posargs or [...]`. -/
def defaultArgs : List String :=
  ["./cookiecutter/tap-template", "./e2e-tests/cookiecutters/tap-rest-api_key-github.json"]

/-- Embedding of `args = session.posargs or [default...]`: an empty argument
list is replaced by the two built-in defaults. -/
def argsOf (env : Env) : List String :=
  if env.posargs.isEmpty then defaultArgs else env.posargs

/-- Embedding of `sdk_dir = os.path.dirname(os.path.dirname(tap_template))`. -/
def sdkDirOf (env : Env) : String :=
  dirname (dirname env.tapTemplateAbs)

/-- The input-validation phase: `len(args) == 1`, then
`not os.path.exists(tap_template)`, then `not os.path.isfile(replay_file)`,
each of which prints a message and returns (ending the session with success
status).  Returns the printed message when the run is rejected. -/
def resolveUsage (env : Env) : Option String :=
  let args := argsOf env
  if args.length = 1 then some ("ERROR:" ++ args.headD "")
  else if env.templateExists = false then some "Tap template folder not found"
  else if env.replayIsFile = false then some "Replay file not found"
  else none

/-- What one run performed and how it ended.  `pyproject` and `pyprojectBak`
are the contents of `pyproject.toml` and `pyproject.toml.bak` in the freshly
generated project (`none` while generation has not completed / has not
produced them). -/
structure RunResult where
  trace : List Step
  outcome : Outcome
  pyproject : Option (List String)
  pyprojectBak : Option (List String)
deriving DecidableEq

/-- The conditional `rm -fr` of the stale output directory. -/
def preTrace (env : Env) : List Step :=
  if env.outputExists then [Step.rmOutput] else []

/-- The final, optional `tox -e lint` run, guarded in the source by
`if len(args) < 3 or int(args[2]) == 1:` — Python evaluates `len(args) < 3`
first and only calls `int` on `args[2]` when a third argument is present
(where a non-integer raises `ValueError`).  `t` is the trace accumulated so
far and `patched` the manifest as rewritten by the patch step. -/
def lintPart (env : Env) (t : List Step) (patched : List String) : RunResult :=
  if (argsOf env).length < 3 then
    if env.toxExit ≠ 0 then
      ⟨t ++ [Step.runLint], Outcome.commandFailed "tox -e lint" env.toxExit,
        some patched, some env.manifest⟩
    else ⟨t ++ [Step.runLint], Outcome.success, some patched, some env.manifest⟩
  else
    match pyInt ((argsOf env).getD 2 "") with
    | none => ⟨t, Outcome.valueError, some patched, some env.manifest⟩
    | some n =>
      if n = 1 then
        if env.toxExit ≠ 0 then
          ⟨t ++ [Step.runLint], Outcome.commandFailed "tox -e lint" env.toxExit,
            some patched, some env.manifest⟩
        else ⟨t ++ [Step.runLint], Outcome.success, some patched, some env.manifest⟩
      else ⟨t, Outcome.success, some patched, some env.manifest⟩

/-- The four quality-gate tools, run in the fixed order `black`, `isort`,
`flake8`, `mypy`, each a separate `poetry run` subprocess; nox aborts the
session at the first non-zero exit status, reporting that command and its
status. -/
def toolsPart (env : Env) (t : List Step) (patched : List String) : RunResult :=
  if env.blackExit ≠ 0 then
    ⟨t ++ [Step.runTool "black"], Outcome.commandFailed "black" env.blackExit,
      some patched, some env.manifest⟩
  else if env.isortExit ≠ 0 then
    ⟨t ++ [Step.runTool "black", Step.runTool "isort"],
      Outcome.commandFailed "isort" env.isortExit, some patched, some env.manifest⟩
  else if env.flake8Exit ≠ 0 then
    ⟨t ++ [Step.runTool "black", Step.runTool "isort", Step.runTool "flake8"],
      Outcome.commandFailed "flake8" env.flake8Exit, some patched, some env.manifest⟩
  else if env.mypyExit ≠ 0 then
    ⟨t ++ [Step.runTool "black", Step.runTool "isort", Step.runTool "flake8",
        Step.runTool "mypy"],
      Outcome.commandFailed "mypy" env.mypyExit, some patched, some env.manifest⟩
  else
    lintPart env
      (t ++ [Step.runTool "black", Step.runTool "isort", Step.runTool "flake8",
        Step.runTool "mypy"]) patched

/-- The discovery loop over the `glob` scan: when nothing matched, the
first `session.run("poetry", "run", "black", library_name, ...)` raises
`NameError` while building its argument list, so no tool is spawned. -/
def discoverPart (env : Env) (t : List Step) (patched : List String) : RunResult :=
  match discoverLibrary env.entries with
  | none => ⟨t, Outcome.nameError, some patched, some env.manifest⟩
  | some _ => toolsPart env t patched

/-- `poetry lock` and `poetry install` after the manifest patch, then the
discovery scan and everything after it. -/
def postPatch (env : Env) (t : List Step) (patched : List String) : RunResult :=
  if env.lockExit ≠ 0 then
    ⟨t ++ [Step.runLock], Outcome.commandFailed "poetry lock" env.lockExit,
      some patched, some env.manifest⟩
  else if env.installExit ≠ 0 then
    ⟨t ++ [Step.runLock, Step.runInstall],
      Outcome.commandFailed "poetry install" env.installExit,
      some patched, some env.manifest⟩
  else discoverPart env (t ++ [Step.runLock, Step.runInstall]) patched

/-- The body of the session after input validation has passed, mirroring the
source line by line: conditional `rm -fr`; `session.install(".")`;
`session.install("cookiecutter", "pythonsed")`; the cookiecutter run; the
`pythonsed` in-place manifest patch (which writes `pyproject.toml.bak` and
exits 0 whether or not any line matched); then `postPatch`.  Every spawned
command whose exit status is non-zero aborts the session there (nox raises
on non-zero exit).  The `os.chdir(cc_test_output)` between generation and
patching is assumed to succeed (the replay file's project slug matches the
derived output name) and is not modelled. -/
def pipelineBody (env : Env) : RunResult :=
  let t0 := preTrace env
  if env.outputExists ∧ env.rmExit ≠ 0 then
    ⟨t0, Outcome.commandFailed "rm" env.rmExit, none, none⟩
  else if env.installSdkExit ≠ 0 then
    ⟨t0 ++ [Step.installSdk], Outcome.commandFailed "pip install ." env.installSdkExit,
      none, none⟩
  else if env.installDepsExit ≠ 0 then
    ⟨t0 ++ [Step.installSdk, Step.installDeps],
      Outcome.commandFailed "pip install cookiecutter pythonsed" env.installDepsExit,
      none, none⟩
  else if env.cookiecutterExit ≠ 0 then
    ⟨t0 ++ [Step.installSdk, Step.installDeps, Step.runCookiecutter],
      Outcome.commandFailed "cookiecutter" env.cookiecutterExit, none, none⟩
  else
    postPatch env
      (t0 ++ [Step.installSdk, Step.installDeps, Step.runCookiecutter, Step.runPatch])
      (patchManifest (sdkDirOf env) env.manifest)

/-- One full run of the `test_cookiecutter` session. -/
def pipeline (env : Env) : RunResult :=
  match resolveUsage env with
  | some m => ⟨[], Outcome.usageError m, none, none⟩
  | none => pipelineBody env

/-- The condition under which the script's input validation rejects the run:
exactly one argument (after default substitution), a template path that does
not exist, or a replay path that is not a regular file. -/
def usageReject (env : Env) : Prop :=
  (argsOf env).length = 1 ∨ env.templateExists = false ∨ env.replayIsFile = false

/-- Everything up to and including the cookiecutter generation succeeded, so
the run reaches the manifest patch. -/
def reachesPatch (env : Env) : Prop :=
  ¬ usageReject env ∧ (env.outputExists = true → env.rmExit = 0) ∧
    env.installSdkExit = 0 ∧ env.installDepsExit = 0 ∧ env.cookiecutterExit = 0

/-- The run additionally survives `poetry lock` and `poetry install`, so it
reaches the library-discovery scan. -/
def reachesDiscovery (env : Env) : Prop :=
  reachesPatch env ∧ env.lockExit = 0 ∧ env.installExit = 0

/-- The run additionally discovered a library name, so it reaches the four
verification tools. -/
def reachesVerification (env : Env) : Prop :=
  reachesDiscovery env ∧ (discoverLibrary env.entries).isSome = true

/-- The final, optional aggregate lint stage neither fails nor raises: when
the third argument is absent the `tox` run must exit 0; when it is present it
must parse as an integer, and when that integer is 1 the `tox` run must
exit 0. -/
def lintStageOk (env : Env) : Prop :=
  ((argsOf env).length < 3 → env.toxExit = 0) ∧
    (3 ≤ (argsOf env).length →
      pyInt ((argsOf env).getD 2 "") ≠ none ∧
        (pyInt ((argsOf env).getD 2 "") = some 1 → env.toxExit = 0))

/-- Every stage of the run succeeds, through the four tools and the optional
lint pass. -/
def allStagesOk (env : Env) : Prop :=
  reachesVerification env ∧ env.blackExit = 0 ∧ env.isortExit = 0 ∧
    env.flake8Exit = 0 ∧ env.mypyExit = 0 ∧ lintStageOk env

/-- The four quality-gate tools in the order the script runs them. -/
def toolNames : List String := ["black", "isort", "flake8", "mypy"]

/-- The exit statuses of the four quality-gate tools, in the same order. -/
def toolExits (env : Env) : List Nat :=
  [env.blackExit, env.isortExit, env.flake8Exit, env.mypyExit]

/-! Helper lemmas. -/

lemma resolveUsage_eq_none_iff (env : Env) : resolveUsage env = none ↔ ¬ usageReject env := by
  unfold resolveUsage usageReject
  by_cases h1 : (argsOf env).length = 1 <;>
    by_cases h2 : env.templateExists = false <;>
      by_cases h3 : env.replayIsFile = false <;>
        simp [h1, h2, h3]

lemma resolveUsage_isSome_iff (env : Env) :
    (resolveUsage env).isSome = true ↔ usageReject env := by
  rcases h : resolveUsage env with _ | m
  · rw [resolveUsage_eq_none_iff] at h
    simp [h]
  · have : ¬ resolveUsage env = none := by simp [h]
    rw [resolveUsage_eq_none_iff, not_not] at this
    simp [this]

lemma pipeline_eq_body (env : Env) (h : ¬ usageReject env) :
    pipeline env = pipelineBody env := by
  unfold pipeline
  rw [(resolveUsage_eq_none_iff env).mpr h]

lemma pipeline_usage (env : Env) (h : usageReject env) :
    (pipeline env).trace = [] ∧ isUsageOutcome (pipeline env).outcome = true ∧
      (pipeline env).pyproject = none ∧ (pipeline env).pyprojectBak = none := by
  have hs : (resolveUsage env).isSome = true := (resolveUsage_isSome_iff env).mpr h
  rcases hm : resolveUsage env with _ | m
  · rw [hm] at hs
    simp at hs
  · unfold pipeline
    rw [hm]
    simp [isUsageOutcome]

lemma lintPart_not_usage (env : Env) (t : List Step) (p : List String) :
    isUsageOutcome (lintPart env t p).outcome = false := by
  unfold lintPart
  repeat' split
  all_goals rfl

lemma toolsPart_not_usage (env : Env) (t : List Step) (p : List String) :
    isUsageOutcome (toolsPart env t p).outcome = false := by
  unfold toolsPart
  repeat' split
  all_goals first | rfl | apply lintPart_not_usage

lemma discoverPart_not_usage (env : Env) (t : List Step) (p : List String) :
    isUsageOutcome (discoverPart env t p).outcome = false := by
  unfold discoverPart
  split
  · rfl
  · apply toolsPart_not_usage

lemma postPatch_not_usage (env : Env) (t : List Step) (p : List String) :
    isUsageOutcome (postPatch env t p).outcome = false := by
  unfold postPatch
  repeat' split
  all_goals first | rfl | apply discoverPart_not_usage

lemma body_not_usage (env : Env) : isUsageOutcome (pipelineBody env).outcome = false := by
  unfold pipelineBody
  dsimp only
  repeat' split
  all_goals first | rfl | apply postPatch_not_usage

lemma lintPart_fields (env : Env) (t : List Step) (p : List String) :
    (lintPart env t p).pyproject = some p ∧
      (lintPart env t p).pyprojectBak = some env.manifest := by
  unfold lintPart
  repeat' split
  all_goals exact ⟨rfl, rfl⟩

lemma toolsPart_fields (env : Env) (t : List Step) (p : List String) :
    (toolsPart env t p).pyproject = some p ∧
      (toolsPart env t p).pyprojectBak = some env.manifest := by
  unfold toolsPart
  repeat' split
  all_goals first | exact ⟨rfl, rfl⟩ | apply lintPart_fields

lemma discoverPart_fields (env : Env) (t : List Step) (p : List String) :
    (discoverPart env t p).pyproject = some p ∧
      (discoverPart env t p).pyprojectBak = some env.manifest := by
  unfold discoverPart
  split
  · exact ⟨rfl, rfl⟩
  · apply toolsPart_fields

lemma postPatch_fields (env : Env) (t : List Step) (p : List String) :
    (postPatch env t p).pyproject = some p ∧
      (postPatch env t p).pyprojectBak = some env.manifest := by
  unfold postPatch
  repeat' split
  all_goals first | exact ⟨rfl, rfl⟩ | apply discoverPart_fields

lemma lintPart_trace_mono (env : Env) (t : List Step) (p : List String) (x : Step)
    (hx : x ∈ t) : x ∈ (lintPart env t p).trace := by
  unfold lintPart
  repeat' split
  all_goals simp [hx]

lemma toolsPart_trace_mono (env : Env) (t : List Step) (p : List String) (x : Step)
    (hx : x ∈ t) : x ∈ (toolsPart env t p).trace := by
  unfold toolsPart
  repeat' split
  all_goals first
    | simp [hx]
    | (apply lintPart_trace_mono; simp [hx])

lemma discoverPart_trace_mono (env : Env) (t : List Step) (p : List String) (x : Step)
    (hx : x ∈ t) : x ∈ (discoverPart env t p).trace := by
  unfold discoverPart
  split
  · simpa using hx
  · exact toolsPart_trace_mono env t p x hx

lemma postPatch_trace_mono (env : Env) (t : List Step) (p : List String) (x : Step)
    (hx : x ∈ t) : x ∈ (postPatch env t p).trace := by
  unfold postPatch
  repeat' split
  all_goals first
    | simp [hx]
    | (apply discoverPart_trace_mono; simp [hx])

lemma lintPart_cmd_nonzero (env : Env) (t : List Step) (p : List String) (n : String)
    (c : Nat) (h : (lintPart env t p).outcome = Outcome.commandFailed n c) : c ≠ 0 := by
  unfold lintPart at h
  repeat' split at h
  all_goals simp_all

lemma toolsPart_cmd_nonzero (env : Env) (t : List Step) (p : List String) (n : String)
    (c : Nat) (h : (toolsPart env t p).outcome = Outcome.commandFailed n c) : c ≠ 0 := by
  unfold toolsPart at h
  repeat' split at h
  all_goals first
    | exact lintPart_cmd_nonzero env _ p n c h
    | simp_all

lemma discoverPart_cmd_nonzero (env : Env) (t : List Step) (p : List String) (n : String)
    (c : Nat) (h : (discoverPart env t p).outcome = Outcome.commandFailed n c) : c ≠ 0 := by
  unfold discoverPart at h
  split at h
  · simp_all
  · exact toolsPart_cmd_nonzero env _ p n c h

lemma postPatch_cmd_nonzero (env : Env) (t : List Step) (p : List String) (n : String)
    (c : Nat) (h : (postPatch env t p).outcome = Outcome.commandFailed n c) : c ≠ 0 := by
  unfold postPatch at h
  repeat' split at h
  all_goals first
    | exact discoverPart_cmd_nonzero env _ p n c h
    | simp_all

lemma body_cmd_nonzero (env : Env) (n : String) (c : Nat)
    (h : (pipelineBody env).outcome = Outcome.commandFailed n c) : c ≠ 0 := by
  unfold pipelineBody at h
  dsimp only at h
  repeat' split at h
  all_goals first
    | exact postPatch_cmd_nonzero env _ _ n c h
    | simp_all

/-- The trace accumulated when the run reaches the manifest patch. -/
def tracePatch (env : Env) : List Step :=
  preTrace env ++ [Step.installSdk, Step.installDeps, Step.runCookiecutter, Step.runPatch]

/-- The trace accumulated when the run reaches the discovery scan and the
verification tools. -/
def traceTools (env : Env) : List Step :=
  tracePatch env ++ [Step.runLock, Step.runInstall]

lemma pipeline_reaches_patch (env : Env) (h : reachesPatch env) :
    pipeline env =
      postPatch env (tracePatch env) (patchManifest (sdkDirOf env) env.manifest) := by
  obtain ⟨hu, hrm, hsdk, hdeps, hcc⟩ := h
  rw [pipeline_eq_body env hu]
  unfold pipelineBody tracePatch
  dsimp only
  rw [if_neg (by rintro ⟨h1, h2⟩; exact h2 (hrm h1)),
    if_neg (not_not_intro hsdk), if_neg (not_not_intro hdeps), if_neg (not_not_intro hcc)]

lemma pipeline_reaches_discovery (env : Env) (h : reachesDiscovery env) :
    pipeline env =
      discoverPart env (traceTools env) (patchManifest (sdkDirOf env) env.manifest) := by
  obtain ⟨hp, hlock, hinst⟩ := h
  rw [pipeline_reaches_patch env hp]
  unfold postPatch traceTools
  rw [if_neg (not_not_intro hlock), if_neg (not_not_intro hinst)]

lemma pipeline_reaches_tools (env : Env) (h : reachesVerification env) :
    pipeline env =
      toolsPart env (traceTools env) (patchManifest (sdkDirOf env) env.manifest) := by
  obtain ⟨hd, hsome⟩ := h
  rw [pipeline_reaches_discovery env hd]
  unfold discoverPart
  obtain ⟨l, hl⟩ := Option.isSome_iff_exists.mp hsome
  rw [hl]

lemma lintPart_success_iff (env : Env) (t : List Step) (p : List String) :
    (lintPart env t p).outcome = Outcome.success ↔ lintStageOk env := by
  unfold lintPart lintStageOk
  by_cases hlen : (argsOf env).length < 3
  · rw [if_pos hlen]
    have h3 : ¬ 3 ≤ (argsOf env).length := by omega
    by_cases htox : env.toxExit = 0
    · rw [if_neg (not_not_intro htox)]
      simp [htox, h3, hlen]
    · rw [if_pos htox]
      simp [htox, h3, hlen]
  · rw [if_neg hlen]
    have h3 : 3 ≤ (argsOf env).length := by omega
    rcases hp : pyInt ((argsOf env).getD 2 "") with _ | n
    · simp [hlen, h3]
    · dsimp only
      by_cases hn : n = 1
      · subst hn
        by_cases htox : env.toxExit = 0
        · rw [if_pos rfl, if_neg (not_not_intro htox)]
          simp [hp, htox, hlen, h3]
        · rw [if_pos rfl, if_pos htox]
          simp [hp, htox, hlen, h3]
      · rw [if_neg hn]
        simp [hp, hlen, h3, hn]

lemma toolsPart_success_iff (env : Env) (t : List Step) (p : List String) :
    (toolsPart env t p).outcome = Outcome.success ↔
      (env.blackExit = 0 ∧ env.isortExit = 0 ∧ env.flake8Exit = 0 ∧ env.mypyExit = 0 ∧
        lintStageOk env) := by
  unfold toolsPart
  by_cases hb : env.blackExit = 0
  · rw [if_neg (not_not_intro hb)]
    by_cases hi : env.isortExit = 0
    · rw [if_neg (not_not_intro hi)]
      by_cases hf : env.flake8Exit = 0
      · rw [if_neg (not_not_intro hf)]
        by_cases hm : env.mypyExit = 0
        · rw [if_neg (not_not_intro hm)]
          rw [lintPart_success_iff]
          simp [hb, hi, hf, hm]
        · rw [if_pos hm]
          simp [hm]
      · rw [if_pos hf]
        simp [hf]
    · rw [if_pos hi]
      simp [hi]
  · rw [if_pos hb]
    simp [hb]

lemma discoverPart_success_iff (env : Env) (t : List Step) (p : List String) :
    (discoverPart env t p).outcome = Outcome.success ↔
      ((discoverLibrary env.entries).isSome = true ∧ env.blackExit = 0 ∧
        env.isortExit = 0 ∧ env.flake8Exit = 0 ∧ env.mypyExit = 0 ∧ lintStageOk env) := by
  unfold discoverPart
  rcases hd : discoverLibrary env.entries with _ | l
  · simp [hd]
  · rw [toolsPart_success_iff]
    simp [hd]

lemma postPatch_success_iff (env : Env) (t : List Step) (p : List String) :
    (postPatch env t p).outcome = Outcome.success ↔
      (env.lockExit = 0 ∧ env.installExit = 0 ∧
        (discoverLibrary env.entries).isSome = true ∧ env.blackExit = 0 ∧
        env.isortExit = 0 ∧ env.flake8Exit = 0 ∧ env.mypyExit = 0 ∧ lintStageOk env) := by
  unfold postPatch
  by_cases hl : env.lockExit = 0
  · rw [if_neg (not_not_intro hl)]
    by_cases hi : env.installExit = 0
    · rw [if_neg (not_not_intro hi)]
      rw [discoverPart_success_iff]
      simp [hl, hi]
    · rw [if_pos hi]
      simp [hi]
  · rw [if_pos hl]
    simp [hl]

lemma body_success_iff (env : Env) :
    (pipelineBody env).outcome = Outcome.success ↔
      ((env.outputExists = true → env.rmExit = 0) ∧ env.installSdkExit = 0 ∧
        env.installDepsExit = 0 ∧ env.cookiecutterExit = 0 ∧ env.lockExit = 0 ∧
        env.installExit = 0 ∧ (discoverLibrary env.entries).isSome = true ∧
        env.blackExit = 0 ∧ env.isortExit = 0 ∧ env.flake8Exit = 0 ∧ env.mypyExit = 0 ∧
        lintStageOk env) := by
  unfold pipelineBody
  dsimp only
  by_cases h0 : env.outputExists = true ∧ env.rmExit ≠ 0
  · rw [if_pos h0]
    simp only [RunResult.mk.injEq]
    constructor
    · intro h
      exact absurd h (by simp)
    · rintro ⟨hrm, _⟩
      exact absurd (hrm h0.1) h0.2
  · rw [if_neg h0]
    have hrm : env.outputExists = true → env.rmExit = 0 := by
      intro hx
      by_contra hr
      exact h0 ⟨hx, hr⟩
    by_cases hsdk : env.installSdkExit = 0
    · rw [if_neg (not_not_intro hsdk)]
      by_cases hdeps : env.installDepsExit = 0
      · rw [if_neg (not_not_intro hdeps)]
        by_cases hcc : env.cookiecutterExit = 0
        · rw [if_neg (not_not_intro hcc)]
          rw [postPatch_success_iff]
          simp only [hrm, hsdk, hdeps, hcc]
          tauto
        · rw [if_pos hcc]
          simp [hcc]
      · rw [if_pos hdeps]
        simp [hdeps]
    · rw [if_pos hsdk]
      simp [hsdk]

lemma pipeline_success_iff (env : Env) :
    (pipeline env).outcome = Outcome.success ↔ allStagesOk env := by
  unfold pipeline
  rcases hu : resolveUsage env with _ | m
  · have hnu : ¬ usageReject env := (resolveUsage_eq_none_iff env).mp hu
    dsimp only
    rw [body_success_iff]
    unfold allStagesOk reachesVerification reachesDiscovery reachesPatch
    tauto
  · have hus : usageReject env := by
      have hsome : (resolveUsage env).isSome = true := by simp [hu]
      exact (resolveUsage_isSome_iff env).mp hsome
    dsimp only
    constructor
    · intro h
      exact absurd h (by simp)
    · intro h
      exact absurd hus h.1.1.1.1

lemma sessionFailed_false_iff (env : Env) :
    sessionFailed (pipeline env).outcome = false ↔ (usageReject env ∨ allStagesOk env) := by
  constructor
  · intro h
    cases ho : (pipeline env).outcome with
    | usageError m =>
      left
      by_contra hu
      have hb := body_not_usage env
      rw [← pipeline_eq_body env hu, ho] at hb
      simp [isUsageOutcome] at hb
    | commandFailed n c =>
      rw [ho] at h
      simp [sessionFailed] at h
    | nameError =>
      rw [ho] at h
      simp [sessionFailed] at h
    | valueError =>
      rw [ho] at h
      simp [sessionFailed] at h
    | success =>
      right
      exact (pipeline_success_iff env).mp ho
  · intro h
    rcases h with hu | hok
    · have h2 := (pipeline_usage env hu).2.1
      cases ho : (pipeline env).outcome with
      | usageError m => rfl
      | commandFailed n c => rw [ho] at h2; simp [isUsageOutcome] at h2
      | nameError => rw [ho] at h2; simp [isUsageOutcome] at h2
      | valueError => rw [ho] at h2; simp [isUsageOutcome] at h2
      | success => rw [ho] at h2; simp [isUsageOutcome] at h2
    · rw [(pipeline_success_iff env).mpr hok]
      rfl

lemma lintPart_not_nameError (env : Env) (t : List Step) (p : List String) :
    (lintPart env t p).outcome ≠ Outcome.nameError := by
  unfold lintPart
  repeat' split
  all_goals simp

lemma toolsPart_not_nameError (env : Env) (t : List Step) (p : List String) :
    (toolsPart env t p).outcome ≠ Outcome.nameError := by
  unfold toolsPart
  repeat' split
  all_goals first | apply lintPart_not_nameError | simp

lemma discover_foldl (es : List DirEntry) (acc : Option String) :
    es.foldl (fun a e => if matchesLibName e.name then some e.name else a) acc
      = (((es.filter (fun e => matchesLibName e.name)).getLast?).map DirEntry.name).or acc := by
  induction es generalizing acc with
  | nil => simp
  | cons e es ih =>
    rw [List.foldl_cons, ih]
    by_cases hm : matchesLibName e.name
    · simp only [List.filter_cons, hm, if_true]
      rcases hg : (es.filter fun x => matchesLibName x.name).getLast? with _ | z
      · have hnil : (es.filter fun x => matchesLibName x.name) = [] :=
          List.getLast?_eq_none_iff.mp hg
        simp [hnil, hm]
      · rcases hl : es.filter fun x => matchesLibName x.name with _ | ⟨y, l2⟩
        · rw [hl] at hg
          simp at hg
        · rw [hl] at hg
          rw [hl]
          simp [List.getLast?_cons_cons, hg, hm]
    · simp only [List.filter_cons, hm, if_false]
      simp [hm]

lemma discoverLibrary_eq_getLast (es : List DirEntry) :
    discoverLibrary es
      = ((es.filter (fun e => matchesLibName e.name)).getLast?).map DirEntry.name := by
  unfold discoverLibrary
  rw [discover_foldl]
  exact Option.or_none

lemma discoverLibrary_none_of_no_match (es : List DirEntry)
    (h : ∀ e ∈ es, matchesLibName e.name = false) : discoverLibrary es = none := by
  rw [discoverLibrary_eq_getLast]
  have hnil : es.filter (fun e => matchesLibName e.name) = [] := by
    rw [List.filter_eq_nil_iff]
    intro a ha
    simp [h a ha]
  rw [hnil]
  rfl

lemma hasSub_of_prefix (pat l : List Char) (h : pat <+: l) : hasSub pat l = true := by
  cases l with
  | nil =>
    have hn : pat = [] := List.prefix_nil.mp h
    simp [hn, hasSub]
  | cons c cs =>
    have hb : pat.isPrefixOf (c :: cs) = true := List.isPrefixOf_iff_prefix.mpr h
    simp [hasSub, hb]

/-- A pattern with no non-trivial border (no proper prefix that is also a
proper suffix) cannot match across the boundary of `p ++ (pat ++ rest)` when
it does not occur inside `p` at all. -/
lemma prefix_cross_absurd (pat p rest : List Char)
    (hb : ∀ m, m < pat.length → 0 < m →
      pat.take m ++ pat.take (pat.length - m) ≠ pat)
    (hp : hasSub pat p = false) (hne : p ≠ [])
    (hpre : pat.isPrefixOf (p ++ (pat ++ rest)) = true) : False := by
  have hpfx : pat <+: p ++ (pat ++ rest) := List.isPrefixOf_iff_prefix.mp hpre
  have heq : pat = (p ++ (pat ++ rest)).take pat.length := List.prefix_iff_eq_take.mp hpfx
  rw [List.take_append_eq_append_take] at heq
  by_cases hm : pat.length ≤ p.length
  · have h0 : pat.length - p.length = 0 := Nat.sub_eq_zero_of_le hm
    rw [h0, List.take_zero, List.append_nil] at heq
    have htp : pat <+: p := by
      rw [heq]
      exact List.take_prefix _ _
    have hcon := hasSub_of_prefix pat p htp
    rw [hp] at hcon
    exact Bool.false_ne_true hcon
  · push_neg at hm
    have hpl : p.take pat.length = p := List.take_of_length_le (Nat.le_of_lt hm)
    rw [hpl, List.take_append_eq_append_take] at heq
    have hk : pat.length - p.length - pat.length = 0 := by omega
    rw [hk, List.take_zero, List.append_nil] at heq
    have hm0 : 0 < p.length := List.length_pos.mpr hne
    have hptake : pat.take p.length = p := by
      have h2 := congrArg (List.take p.length) heq
      rw [List.take_append_eq_append_take, Nat.sub_self, List.take_zero, List.append_nil,
        List.take_of_length_le (le_refl p.length)] at h2
      exact h2
    have hcontr : pat.take p.length ++ pat.take (pat.length - p.length) = pat := by
      rw [hptake]
      exact heq.symm
    exact hb p.length hm hm0 hcontr

lemma jsonChars_no_border :
    ∀ m, m < jsonChars.length → 0 < m →
      jsonChars.take m ++ jsonChars.take (jsonChars.length - m) ≠ jsonChars := by
  decide

lemma markerChars_no_border :
    ∀ m, m < markerChars.length → 0 < m →
      markerChars.take m ++ markerChars.take (markerChars.length - m) ≠ markerChars := by
  decide

lemma stripJsonGo_no_json (fuel : Nat) :
    ∀ l : List Char, l.length ≤ fuel → hasSub jsonChars l = false →
      stripJsonGo fuel l = l := by
  induction fuel with
  | zero =>
    intro l _ _
    rfl
  | succ f ih =>
    intro l hf h
    cases l with
    | nil => rfl
    | cons c cs =>
      have hx := Bool.or_eq_false_iff.mp (show (jsonChars.isPrefixOf (c :: cs) ||
        hasSub jsonChars cs) = false from h)
      show stripJsonGo (f + 1) (c :: cs) = c :: cs
      rw [stripJsonGo, if_neg (by simp [hx.1])]
      have hlen : cs.length ≤ f := by
        simp only [List.length_cons] at hf
        omega
      rw [ih cs hlen hx.2]

lemma stripJson_no_json (l : List Char) (h : hasSub jsonChars l = false) :
    stripJson l = l :=
  stripJsonGo_no_json l.length l (le_refl _) h

lemma stripJsonGo_append_json (fuel : Nat) :
    ∀ a : List Char, (a ++ jsonChars).length ≤ fuel → hasSub jsonChars a = false →
      stripJsonGo fuel (a ++ jsonChars) = a := by
  induction fuel with
  | zero =>
    intro a hf _
    exfalso
    simp [List.length_append, jsonChars] at hf
  | succ f ih =>
    intro a hf h
    cases a with
    | nil =>
      show stripJsonGo (f + 1) jsonChars = []
      rcases f with _ | f2
      · rfl
      · rfl
    | cons c cs =>
      rw [List.cons_append]
      by_cases hpre : jsonChars.isPrefixOf (c :: (cs ++ jsonChars)) = true
      · exfalso
        apply prefix_cross_absurd jsonChars (c :: cs) [] jsonChars_no_border h (by simp)
        simpa using hpre
      · show stripJsonGo (f + 1) (c :: (cs ++ jsonChars)) = c :: cs
        rw [stripJsonGo, if_neg hpre]
        have hx := Bool.or_eq_false_iff.mp (show (jsonChars.isPrefixOf (c :: cs) ||
          hasSub jsonChars cs) = false from h)
        have hlen : (cs ++ jsonChars).length ≤ f := by
          simp only [List.cons_append, List.length_cons] at hf
          omega
        rw [ih cs hlen hx.2]

lemma stripJson_append_json (a : List Char) (h : hasSub jsonChars a = false) :
    stripJson (a ++ jsonChars) = a :=
  stripJsonGo_append_json (a ++ jsonChars).length a (le_refl _) h

lemma sedDropAfter_no_marker (rep : List Char) :
    ∀ l : List Char, hasSub markerChars l = false → sedDropAfter rep l = l := by
  intro l h
  induction l with
  | nil => rfl
  | cons c cs ih =>
    have hx := Bool.or_eq_false_iff.mp (show (markerChars.isPrefixOf (c :: cs) ||
      hasSub markerChars cs) = false from h)
    rw [sedDropAfter, if_neg (by simp [hx.1])]
    rw [ih hx.2]

lemma sedDropAfter_at_marker (rep : List Char) :
    ∀ p rest : List Char, hasSub markerChars p = false →
      sedDropAfter rep (p ++ (markerChars ++ rest)) = p ++ rep := by
  intro p rest hp
  induction p with
  | nil =>
    simp only [List.nil_append]
    have hone : markerChars.isPrefixOf (markerChars ++ rest) = true := by
      rw [List.isPrefixOf_iff_prefix]
      exact List.prefix_append _ _
    rcases hmk : markerChars ++ rest with _ | ⟨c, cs⟩
    · simp [markerChars] at hmk
    · rw [hmk] at hone
      rw [sedDropAfter, if_pos hone]
  | cons c cs ih =>
    rw [List.cons_append]
    by_cases hpre : markerChars.isPrefixOf (c :: (cs ++ (markerChars ++ rest))) = true
    · exfalso
      apply prefix_cross_absurd markerChars (c :: cs) rest markerChars_no_border hp (by simp)
      simpa using hpre
    · have hx := Bool.or_eq_false_iff.mp (show (markerChars.isPrefixOf (c :: cs) ||
        hasSub markerChars cs) = false from hp)
      rw [sedDropAfter, if_neg hpre, ih hx.2, List.cons_append]

lemma takeWhile_append_stop (p : Char → Bool) (u : List Char) (v : Char) (w : List Char)
    (hu : ∀ c ∈ u, p c = true) (hv : p v = false) :
    (u ++ v :: w).takeWhile p = u := by
  induction u with
  | nil =>
    rw [List.nil_append, List.takeWhile_cons, hv]
    simp
  | cons x u ih =>
    have hx : p x = true := hu x (by simp)
    rw [List.cons_append, List.takeWhile_cons, hx]
    simp only [if_true]
    rw [ih (fun c hc => hu c (by simp [hc]))]

lemma basenameChars_append (d : List Char) (b : List Char) (hb : ∀ c ∈ b, c ≠ '/') :
    basenameChars (d ++ '/' :: b) = b := by
  unfold basenameChars
  rw [List.reverse_append, List.reverse_cons, List.append_assoc, List.singleton_append]
  rw [takeWhile_append_stop _ _ _ _ (by
    intro c hc
    have := hb c (by simpa using hc)
    simp [this]) (by simp)]
  rw [List.reverse_reverse]

lemma traceTools_filter (env : Env) : (traceTools env).filter isQualityTool = [] := by
  unfold traceTools tracePatch preTrace
  by_cases ho : env.outputExists = true
  · rw [if_pos ho]
    decide
  · rw [if_neg ho]
    decide

lemma traceTools_lint_free (env : Env) : Step.runLint ∉ traceTools env := by
  unfold traceTools tracePatch preTrace
  by_cases ho : env.outputExists = true
  · rw [if_pos ho]
    decide
  · rw [if_neg ho]
    decide

lemma runPatch_not_mem_preTrace (env : Env) : Step.runPatch ∉ preTrace env := by
  unfold preTrace
  split
  · decide
  · decide

lemma lintPart_trace_filter (env : Env) (t : List Step) (p : List String) :
    (lintPart env t p).trace.filter isQualityTool = t.filter isQualityTool := by
  unfold lintPart
  repeat' split
  all_goals simp [List.filter_append, isQualityTool]

lemma postPatch_runLock_mem (env : Env) (t : List Step) (p : List String) :
    Step.runLock ∈ (postPatch env t p).trace := by
  unfold postPatch
  repeat' split
  all_goals first
    | simp
    | (apply discoverPart_trace_mono; simp)

/-- A manifest body shared by the concrete runs below, holding one
self-referential dependency line. -/
def baseManifest : List String :=
  ["[tool.poetry.dependencies]", "python = \"<3.12,>=3.7.1\"", "singer-sdk = \"^0.19.0\""]

/-- A generated-project scan with one `tap`-prefixed entry. -/
def baseEntries : List DirEntry :=
  [⟨"tap_rest_api_key_github", true⟩, ⟨"pyproject.toml", false⟩]

/-- A concrete environment with the given positional arguments, both input
paths valid, no stale output, every command succeeding. -/
def envWithArgs (a : List String) : Env :=
  ⟨a, true, true, true, false, "/repo/cookiecutter/tap-template",
    0, 0, 0, 0, 0, 0, baseManifest, baseEntries, 0, 0, 0, 0, 0⟩

/-- A concrete environment whose template path exists but is a regular file
rather than a directory. -/
def envFileTemplate : Env :=
  ⟨[], true, false, true, false, "/repo/cookiecutter/tap-template",
    0, 0, 0, 0, 0, 0, baseManifest, baseEntries, 0, 0, 0, 0, 0⟩

/-- A manifest without any `singer-sdk =` dependency line. -/
def noDepManifest : List String :=
  ["[tool.poetry.dependencies]", "python = \"^3.9\""]

/-- A concrete environment whose generated manifest lacks the
self-referential dependency line. -/
def envNoDep : Env :=
  ⟨[], true, true, true, false, "/repo/cookiecutter/tap-template",
    0, 0, 0, 0, 0, 0, noDepManifest, baseEntries, 0, 0, 0, 0, 0⟩

/-- A concrete environment in which `isort` exits with status 2 and
everything else succeeds. -/
def envC1w : Env :=
  ⟨[], true, true, true, false, "/repo/cookiecutter/tap-template",
    0, 0, 0, 0, 0, 0, baseManifest, baseEntries, 0, 2, 0, 0, 0⟩

/-- A concrete environment whose generated-project scan holds no entry
starting with `tap` or `target`. -/
def envNoMatch : Env :=
  ⟨[], true, true, true, false, "/repo/cookiecutter/tap-template",
    0, 0, 0, 0, 0, 0, baseManifest,
    [⟨"docs", true⟩, ⟨"pyproject.toml", false⟩], 0, 0, 0, 0, 0⟩

/-- A concrete environment whose scan holds several matching entries (a file
among them). -/
def envTwoMatch : Env :=
  ⟨[], true, true, true, false, "/repo/cookiecutter/tap-template",
    0, 0, 0, 0, 0, 0, baseManifest,
    [⟨"tap_a", true⟩, ⟨"docs", false⟩, ⟨"target_b", false⟩], 0, 0, 0, 0, 0⟩

/-! Claim theorems. -/

/-- C1: on every run that reaches the Verification Runner, the four
quality-gate tools are invoked in the fixed order formatter (`black`),
import-sorter (`isort`), style-linter (`flake8`), type-checker (`mypy`),
each as a separate subprocess; the tools actually invoked are exactly those
up to and including the first one with a non-zero exit status (no tool after
it ever runs), and when some tool fails the run's outcome reports exactly
that tool's name and its exit status. -/
theorem verification_fail_fast (env : Env) (h : reachesVerification env) :
    (pipeline env).trace.filter isQualityTool
        = (toolNames.take ((toolExits env).findIdx (fun e => e != 0) + 1)).map Step.runTool
      ∧ ((toolExits env).findIdx (fun e => e != 0) < 4 →
          (pipeline env).outcome =
            Outcome.commandFailed
              (toolNames.getD ((toolExits env).findIdx (fun e => e != 0)) "")
              ((toolExits env).getD ((toolExits env).findIdx (fun e => e != 0)) 0)) := by
  rw [pipeline_reaches_tools env h]
  have htt := traceTools_filter env
  unfold toolsPart
  by_cases hb : env.blackExit = 0
  · rw [if_neg (not_not_intro hb)]
    by_cases hi : env.isortExit = 0
    · rw [if_neg (not_not_intro hi)]
      by_cases hf : env.flake8Exit = 0
      · rw [if_neg (not_not_intro hf)]
        by_cases hm : env.mypyExit = 0
        · rw [if_neg (not_not_intro hm)]
          have hidx : (toolExits env).findIdx (fun e => e != 0) = 4 := by
            simp [toolExits, List.findIdx_cons, hb, hi, hf, hm]
          rw [hidx]
          constructor
          · rw [lintPart_trace_filter, List.filter_append, htt]
            decide
          · intro hlt
            omega
        · rw [if_pos hm]
          have hm2 : (env.mypyExit != 0) = true := bne_iff_ne.mpr hm
          have hidx : (toolExits env).findIdx (fun e => e != 0) = 3 := by
            simp [toolExits, List.findIdx_cons, hb, hi, hf, hm2]
          rw [hidx]
          refine ⟨?_, fun _ => ?_⟩
          · show List.filter isQualityTool (traceTools env ++ [Step.runTool "black",
              Step.runTool "isort", Step.runTool "flake8", Step.runTool "mypy"]) = _
            rw [List.filter_append, htt]
            decide
          · simp [toolNames, hb, hi, hf, toolExits]
      · rw [if_pos hf]
        have hf2 : (env.flake8Exit != 0) = true := bne_iff_ne.mpr hf
        have hidx : (toolExits env).findIdx (fun e => e != 0) = 2 := by
          simp [toolExits, List.findIdx_cons, hb, hi, hf2]
        rw [hidx]
        refine ⟨?_, fun _ => ?_⟩
        · show List.filter isQualityTool (traceTools env ++ [Step.runTool "black",
            Step.runTool "isort", Step.runTool "flake8"]) = _
          rw [List.filter_append, htt]
          decide
        · simp [toolNames, toolExits]
    · rw [if_pos hi]
      have hi2 : (env.isortExit != 0) = true := bne_iff_ne.mpr hi
      have hidx : (toolExits env).findIdx (fun e => e != 0) = 1 := by
        simp [toolExits, List.findIdx_cons, hb, hi2]
      rw [hidx]
      refine ⟨?_, fun _ => ?_⟩
      · show List.filter isQualityTool (traceTools env ++ [Step.runTool "black",
          Step.runTool "isort"]) = _
        rw [List.filter_append, htt]
        decide
      · simp [toolNames, toolExits]
  · rw [if_pos hb]
    have hb2 : (env.blackExit != 0) = true := bne_iff_ne.mpr hb
    have hidx : (toolExits env).findIdx (fun e => e != 0) = 0 := by
      simp [toolExits, List.findIdx_cons, hb2]
    rw [hidx]
    refine ⟨?_, fun _ => ?_⟩
    · show List.filter isQualityTool (traceTools env ++ [Step.runTool "black"]) = _
      rw [List.filter_append, htt]
      decide
    · simp [toolNames, toolExits]

/-- Witness for C1: with `isort` exiting 2 and everything else passing, the
run invokes exactly `black` then `isort` and reports `isort`'s exit status. -/
theorem verification_fail_fast_witness :
    (pipeline envC1w).trace.filter isQualityTool
        = [Step.runTool "black", Step.runTool "isort"]
    ∧ (pipeline envC1w).outcome = Outcome.commandFailed "isort" 2 := by
  have h := verification_fail_fast envC1w
    (by unfold reachesVerification reachesDiscovery reachesPatch usageReject; decide)
  exact ⟨h.1, h.2 (by decide)⟩

/-- C2 counterexample: the claim's rejection condition is not necessary.  A
run with four positional arguments (count neither 2 nor 3) is accepted and
succeeds, and so is a run whose template path exists but is a regular file
rather than a directory. -/
theorem input_resolver_claim_counterexample :
    (pipeline (envWithArgs ["./tpl", "./replay.json", "1", "extra"])).outcome
        = Outcome.success
    ∧ (argsOf (envWithArgs ["./tpl", "./replay.json", "1", "extra"])).length = 4
    ∧ (pipeline envFileTemplate).outcome = Outcome.success
    ∧ envFileTemplate.templateIsDir = false
    ∧ envFileTemplate.templateExists = true := by
  decide

/-- C2 (amended): the run is rejected with a usage error if and only if the
argument list (after default substitution of an empty list) has exactly one
entry, or the template path does not exist at all (directory or not), or the
replay path is not a regular file; and a rejected run spawns no subprocess
and leaves the generated project untouched. -/
theorem input_resolver_amended (env : Env) :
    (isUsageOutcome (pipeline env).outcome = true ↔ usageReject env)
    ∧ (usageReject env →
        (pipeline env).trace = [] ∧ (pipeline env).pyproject = none ∧
          (pipeline env).pyprojectBak = none) := by
  constructor
  · constructor
    · intro h
      by_contra hu
      have hb := body_not_usage env
      rw [← pipeline_eq_body env hu] at hb
      rw [h] at hb
      simp at hb
    · intro hu
      exact (pipeline_usage env hu).2.1
  · intro hu
    obtain ⟨h1, _, h3, h4⟩ := pipeline_usage env hu
    exact ⟨h1, h3, h4⟩

/-- Witness for the amended C2, at a run invoked with a single argument. -/
theorem input_resolver_amended_witness :
    (isUsageOutcome (pipeline (envWithArgs ["only"])).outcome = true ↔
        usageReject (envWithArgs ["only"]))
    ∧ ((pipeline (envWithArgs ["only"])).trace = []
        ∧ (pipeline (envWithArgs ["only"])).pyproject = none
        ∧ (pipeline (envWithArgs ["only"])).pyprojectBak = none) :=
  ⟨(input_resolver_amended (envWithArgs ["only"])).1,
    (input_resolver_amended (envWithArgs ["only"])).2
      (by unfold usageReject; decide)⟩

/-- C3 counterexample: with a manifest lacking the self-referential
dependency line, the patch step is a silent no-op — the run continues
through lock, install and the verification tools and ends in success, and
the patch step still writes the backup file (so the project is not left
unmodified either). -/
theorem patch_missing_line_counterexample :
    (pipeline envNoDep).outcome = Outcome.success
    ∧ Step.runLock ∈ (pipeline envNoDep).trace
    ∧ Step.runInstall ∈ (pipeline envNoDep).trace
    ∧ Step.runTool "black" ∈ (pipeline envNoDep).trace
    ∧ (pipeline envNoDep).pyprojectBak = some noDepManifest := by
  decide

/-- C3 (amended): when the manifest holds no `singer-sdk =` line, the sed
substitution leaves `pyproject.toml`'s contents unchanged and exits 0, the
run is not aborted (it proceeds to `poetry lock`), and a
`pyproject.toml.bak` backup holding the pre-patch contents is written. -/
theorem patch_missing_line_amended (env : Env) (h : reachesPatch env)
    (hm : ∀ line ∈ env.manifest, hasSub markerChars line.toList = false) :
    (pipeline env).pyproject = some env.manifest
    ∧ (pipeline env).pyprojectBak = some env.manifest
    ∧ Step.runPatch ∈ (pipeline env).trace
    ∧ Step.runLock ∈ (pipeline env).trace := by
  rw [pipeline_reaches_patch env h]
  have hid : patchManifest (sdkDirOf env) env.manifest = env.manifest := by
    unfold patchManifest
    rw [List.map_congr_left (g := id) ?hg, List.map_id]
    case hg =>
      intro line hline
      unfold sedLine
      rw [sedDropAfter_no_marker _ _ (hm line hline)]
      rfl
  rw [hid]
  exact ⟨(postPatch_fields env _ _).1, (postPatch_fields env _ _).2,
    postPatch_trace_mono env _ _ _ (by unfold tracePatch; simp),
    postPatch_runLock_mem env _ _⟩

/-- Witness for the amended C3, at the concrete dependency-free manifest. -/
theorem patch_missing_line_amended_witness :
    (pipeline envNoDep).pyproject = some envNoDep.manifest
    ∧ (pipeline envNoDep).pyprojectBak = some envNoDep.manifest
    ∧ Step.runPatch ∈ (pipeline envNoDep).trace
    ∧ Step.runLock ∈ (pipeline envNoDep).trace :=
  patch_missing_line_amended envNoDep
    (by unfold reachesPatch usageReject; decide) (by decide)

/-- C4: on a run that reaches Library Discovery, if no scanned entry's name
starts with `tap` or `target` the discovery variable stays unset, the run
ends with the `NameError` (the spec's `DiscoveryError`), and no verification
tool — and no aggregate lint pass — is ever invoked. -/
theorem discovery_error_before_tools (env : Env) (h : reachesDiscovery env)
    (hnone : ∀ e ∈ env.entries, matchesLibName e.name = false) :
    (pipeline env).outcome = Outcome.nameError
    ∧ (pipeline env).trace.filter isQualityTool = []
    ∧ Step.runLint ∉ (pipeline env).trace
    ∧ discoverLibrary env.entries = none := by
  have hd := discoverLibrary_none_of_no_match env.entries hnone
  rw [pipeline_reaches_discovery env h]
  unfold discoverPart
  rw [hd]
  exact ⟨rfl, traceTools_filter env, traceTools_lint_free env, rfl⟩

/-- Witness for C4, at a scan holding no matching entry. -/
theorem discovery_error_before_tools_witness :
    (pipeline envNoMatch).outcome = Outcome.nameError
    ∧ (pipeline envNoMatch).trace.filter isQualityTool = []
    ∧ Step.runLint ∉ (pipeline envNoMatch).trace
    ∧ discoverLibrary envNoMatch.entries = none :=
  discovery_error_before_tools envNoMatch
    (by unfold reachesDiscovery reachesPatch usageReject; decide) (by decide)

/-- C5 counterexample: the derivation removes every occurrence of `.json`
from the base name, not only a trailing suffix: for the replay file
`tap.json.json` the code produces `tap` where the claim's reading (strip a
trailing `.json` only) gives `tap.json`. -/
theorem output_name_counterexample :
    outputName "tap.json.json" = "tap"
    ∧ stripTrailingJsonSpec (basenameStr "tap.json.json") = "tap.json"
    ∧ outputName "tap.json.json" ≠ stripTrailingJsonSpec (basenameStr "tap.json.json") := by
  decide

/-- C5 (amended): OutputName is the base name with every occurrence of
`.json` removed; when the base name holds `.json` only as a trailing suffix
this equals stripping that suffix, GeneratedProject is `/tmp/OutputName`,
and the example replay file yields `/tmp/tap-rest-api_key-github`. -/
theorem output_name_amended (dir a : String)
    (ha : hasSub jsonChars a.toList = false)
    (hs : ∀ c ∈ a.toList, c ≠ '/') :
    outputName (dir ++ "/" ++ (a ++ ".json")) = a
    ∧ generatedProjectPath (dir ++ "/" ++ (a ++ ".json")) = "/tmp/" ++ a
    ∧ generatedProjectPath "./e2e-tests/cookiecutters/tap-rest-api_key-github.json"
        = "/tmp/tap-rest-api_key-github" := by
  have h1 : (dir ++ "/" ++ (a ++ ".json")).toList
      = dir.toList ++ '/' :: (a.toList ++ jsonChars) := by
    show (dir ++ "/" ++ (a ++ ".json")).data = dir.data ++ '/' :: (a.data ++ jsonChars)
    simp only [String.data_append]
    rw [List.append_assoc]
    rfl
  have hone : outputName (dir ++ "/" ++ (a ++ ".json")) = a := by
    unfold outputName
    rw [h1, basenameChars_append _ _ ?hsl]
    case hsl =>
      intro c hc
      rcases List.mem_append.mp hc with hcm | hcm
      · exact hs c hcm
      · simp only [jsonChars, List.mem_cons, List.not_mem_nil, or_false] at hcm
        rcases hcm with rfl | rfl | rfl | rfl | rfl <;> decide
    rw [stripJson_append_json a.toList ha]
    rcases a with ⟨ad⟩
    rfl
  refine ⟨hone, ?_, by decide⟩
  unfold generatedProjectPath
  rw [hone]
  rfl

/-- Witness for the amended C5, at a concrete replay path. -/
theorem output_name_amended_witness :
    outputName ("/repo/e2e" ++ "/" ++ ("tap-github" ++ ".json")) = "tap-github"
    ∧ generatedProjectPath ("/repo/e2e" ++ "/" ++ ("tap-github" ++ ".json"))
        = "/tmp/" ++ "tap-github"
    ∧ generatedProjectPath "./e2e-tests/cookiecutters/tap-rest-api_key-github.json"
        = "/tmp/tap-rest-api_key-github" :=
  output_name_amended "/repo/e2e" "tap-github" (by decide) (by decide)

/-- C6 counterexample: an input-validation failure (a single argument) ends
the run with the usage message but with success (zero) status — the session
does not report failure, contradicting the claim that every failing run
terminates with non-zero status. -/
theorem exit_status_counterexample :
    (pipeline (envWithArgs ["justone"])).outcome = Outcome.usageError "ERROR:justone"
    ∧ sessionFailed (pipeline (envWithArgs ["justone"])).outcome = false := by
  decide

/-- C6 (amended): the run reports success (zero status) exactly when either
every stage succeeds or input validation rejected the inputs (a rejection
prints an error and returns success); every spawned command that fails is
reported with its own non-zero exit status and makes the session fail. -/
theorem exit_status_amended (env : Env) :
    (sessionFailed (pipeline env).outcome = false ↔ (usageReject env ∨ allStagesOk env))
    ∧ (∀ n c, (pipeline env).outcome = Outcome.commandFailed n c →
        c ≠ 0 ∧ sessionFailed (pipeline env).outcome = true) := by
  refine ⟨sessionFailed_false_iff env, ?_⟩
  intro n c hc
  refine ⟨?_, by rw [hc]; rfl⟩
  by_cases hu : usageReject env
  · have h2 := (pipeline_usage env hu).2.1
    rw [hc] at h2
    simp [isUsageOutcome] at h2
  · rw [pipeline_eq_body env hu] at hc
    exact body_cmd_nonzero env n c hc

/-- Witness for the amended C6, at the run whose `isort` exits 2. -/
theorem exit_status_amended_witness :
    (sessionFailed (pipeline envC1w).outcome = false ↔
        (usageReject envC1w ∨ allStagesOk envC1w))
    ∧ ((2 : Nat) ≠ 0 ∧ sessionFailed (pipeline envC1w).outcome = true) :=
  ⟨(exit_status_amended envC1w).1,
    (exit_status_amended envC1w).2 "isort" 2 (by decide)⟩

/-- C7 counterexample: the sed substitution rewrites every line containing
the marker, not exactly one — in a manifest with two `singer-sdk =` lines
the second line is rewritten too, so not every other byte is preserved. -/
theorem patch_rewrite_counterexample :
    patchManifest "/repo"
        ["name = \"tap-x\"", "singer-sdk = \"^0.19\"", "singer-sdk = \"^0.20\""]
      = ["name = \"tap-x\"",
          "singer-sdk = \x7b path = \"/repo\", develop = true \x7d",
          "singer-sdk = \x7b path = \"/repo\", develop = true \x7d"]
    ∧ (patchManifest "/repo"
        ["name = \"tap-x\"", "singer-sdk = \"^0.19\"", "singer-sdk = \"^0.20\""]).getD 2 ""
        ≠ "singer-sdk = \"^0.20\"" := by
  decide

/-- C7 (amended): the patch maps every manifest line independently; a line
without the `singer-sdk =` marker is preserved byte-for-byte, and a line
holding the marker (with a marker-free prefix before it) is rewritten from
the marker to the end of the line into the local path-dependency declaration
pointing at SdkDir.  In particular a manifest with exactly one marker line
has exactly that line rewritten. -/
theorem patch_rewrite_amended (sdkDir : String) (m : List String) :
    (patchManifest sdkDir m).length = m.length
    ∧ (∀ i : Nat, (patchManifest sdkDir m)[i]? = (m[i]?).map (sedLine sdkDir))
    ∧ (∀ line ∈ m, hasSub markerChars line.toList = false → sedLine sdkDir line = line)
    ∧ (∀ p rest : List Char, hasSub markerChars p = false →
        sedLine sdkDir (String.mk (p ++ (markerChars ++ rest)))
          = String.mk (p ++ declChars sdkDir)) := by
  refine ⟨by simp [patchManifest], ?_, ?_, ?_⟩
  · intro i
    simp [patchManifest]
  · intro line _ hnomark
    unfold sedLine
    rw [sedDropAfter_no_marker _ _ hnomark]
    rcases line with ⟨ld⟩
    rfl
  · intro p rest hp
    unfold sedLine
    show String.mk (sedDropAfter (declChars sdkDir) (p ++ (markerChars ++ rest)))
        = String.mk (p ++ declChars sdkDir)
    rw [sedDropAfter_at_marker _ _ _ hp]

/-- Witness for the amended C7, at concrete manifest lines. -/
theorem patch_rewrite_amended_witness :
    (patchManifest "/repo" ["a = 1", "singer-sdk = \"^0.19\""]).length = 2
    ∧ sedLine "/repo" "a = 1" = "a = 1"
    ∧ sedLine "/repo" (String.mk (("x = 2, ").toList ++ (markerChars ++ " \"1\"".toList)))
        = String.mk (("x = 2, ").toList ++ declChars "/repo") := by
  have h := patch_rewrite_amended "/repo" ["a = 1", "singer-sdk = \"^0.19\""]
  exact ⟨h.1, h.2.2.1 "a = 1" (by decide) (by decide),
    h.2.2.2 ("x = 2, ").toList (" \"1\"".toList) (by decide)⟩

/-- C8: after the four verification tools succeed, the aggregate lint pass
(`tox -e lint`) runs if and only if the third argument is omitted or parses
to the integer 1 (so `0` skips it), and when it runs and fails the session
reports it under the same fail-fast policy, with its exit status. -/
theorem lint_flag_semantics (env : Env) (h : reachesVerification env)
    (hb : env.blackExit = 0) (hi : env.isortExit = 0) (hf : env.flake8Exit = 0)
    (hm : env.mypyExit = 0) :
    (Step.runLint ∈ (pipeline env).trace ↔
      ((argsOf env).length < 3 ∨ pyInt ((argsOf env).getD 2 "") = some 1))
    ∧ (((argsOf env).length < 3 ∨ pyInt ((argsOf env).getD 2 "") = some 1) →
        env.toxExit ≠ 0 →
        (pipeline env).outcome = Outcome.commandFailed "tox -e lint" env.toxExit) := by
  rw [pipeline_reaches_tools env h]
  unfold toolsPart
  rw [if_neg (not_not_intro hb), if_neg (not_not_intro hi), if_neg (not_not_intro hf),
    if_neg (not_not_intro hm)]
  have hnl : Step.runLint ∉ traceTools env ++ [Step.runTool "black", Step.runTool "isort",
      Step.runTool "flake8", Step.runTool "mypy"] := by
    intro hmem
    rcases List.mem_append.mp hmem with h2 | h2
    · exact traceTools_lint_free env h2
    · simp at h2
  unfold lintPart
  by_cases hlen : (argsOf env).length < 3
  · rw [if_pos hlen]
    by_cases htox : env.toxExit ≠ 0
    · rw [if_pos htox]
      refine ⟨iff_of_true (by simp) (Or.inl hlen), fun _ _ => rfl⟩
    · rw [if_neg htox]
      refine ⟨iff_of_true (by simp) (Or.inl hlen), fun _ h2 => absurd h2 htox⟩
  · rw [if_neg hlen]
    rcases hp : pyInt ((argsOf env).getD 2 "") with _ | nn
    · dsimp only
      refine ⟨iff_of_false hnl (by simp [hlen]), fun hcon _ => ?_⟩
      rcases hcon with hcon | hcon
      · exact absurd hcon hlen
      · exact Option.noConfusion hcon
    · dsimp only
      by_cases hn1 : nn = 1
      · subst hn1
        rw [if_pos rfl]
        by_cases htox : env.toxExit ≠ 0
        · rw [if_pos htox]
          refine ⟨iff_of_true (by simp) (Or.inr rfl), fun _ _ => rfl⟩
        · rw [if_neg htox]
          refine ⟨iff_of_true (by simp) (Or.inr rfl), fun _ h2 => absurd h2 htox⟩
      · rw [if_neg hn1]
        refine ⟨iff_of_false hnl (by simp [hlen, hn1]), fun hcon _ => ?_⟩
        rcases hcon with hcon | hcon
        · exact absurd hcon hlen
        · rw [Option.some_inj] at hcon
          exact absurd hcon hn1

/-- Witness for C8, at the default-argument run (third argument omitted, so
the lint pass runs). -/
theorem lint_flag_semantics_witness :
    (Step.runLint ∈ (pipeline (envWithArgs [])).trace ↔
      ((argsOf (envWithArgs [])).length < 3 ∨
        pyInt ((argsOf (envWithArgs [])).getD 2 "") = some 1))
    ∧ (((argsOf (envWithArgs [])).length < 3 ∨
          pyInt ((argsOf (envWithArgs [])).getD 2 "") = some 1) →
        (envWithArgs []).toxExit ≠ 0 →
        (pipeline (envWithArgs [])).outcome
          = Outcome.commandFailed "tox -e lint" (envWithArgs []).toxExit) :=
  lint_flag_semantics (envWithArgs [])
    (by unfold reachesVerification reachesDiscovery reachesPatch usageReject; decide)
    rfl rfl rfl rfl

/-- C9: the discovery scan considers every enumerated child entry, file or
directory alike (flipping every entry's kind changes nothing); it selects
the last enumerated entry whose name starts with `tap` or `target`, each
later match overwriting the earlier one; and a scan with at least one match
(several included) raises no discovery error. -/
theorem discovery_scan_semantics (env : Env)
    (h : env.entries.filter (fun e => matchesLibName e.name) ≠ []) :
    discoverLibrary env.entries
        = ((env.entries.filter (fun e => matchesLibName e.name)).getLast?).map DirEntry.name
    ∧ discoverLibrary env.entries
        = discoverLibrary (env.entries.map (fun e => DirEntry.mk e.name (!e.isDir)))
    ∧ (reachesDiscovery env → (pipeline env).outcome ≠ Outcome.nameError) := by
  refine ⟨discoverLibrary_eq_getLast env.entries, ?_, ?_⟩
  · unfold discoverLibrary
    rw [List.foldl_map]
  · intro hd
    rw [pipeline_reaches_discovery env hd]
    unfold discoverPart
    rcases hg : (env.entries.filter fun e => matchesLibName e.name).getLast? with _ | x
    · exact absurd (List.getLast?_eq_none_iff.mp hg) h
    · rw [discoverLibrary_eq_getLast env.entries, hg]
      exact toolsPart_not_nameError env _ _

/-- Witness for C9, at a scan with two matching entries (one of them a
file). -/
theorem discovery_scan_semantics_witness :
    discoverLibrary envTwoMatch.entries
        = ((envTwoMatch.entries.filter (fun e => matchesLibName e.name)).getLast?).map
            DirEntry.name
    ∧ discoverLibrary envTwoMatch.entries
        = discoverLibrary (envTwoMatch.entries.map (fun e => DirEntry.mk e.name (!e.isDir)))
    ∧ (pipeline envTwoMatch).outcome ≠ Outcome.nameError := by
  have h := discovery_scan_semantics envTwoMatch (by decide)
  exact ⟨h.1, h.2.1,
    h.2.2 (by unfold reachesDiscovery reachesPatch usageReject; decide)⟩

/-- C10: every run in which the patch command is spawned leaves a
`pyproject.toml.bak` holding the pre-patch manifest contents in the
generated project, alongside the (possibly unchanged) rewrite of
`pyproject.toml` — so reaching the patch step always modifies the generated
project. -/
theorem patch_backup (env : Env) (h : Step.runPatch ∈ (pipeline env).trace) :
    (pipeline env).pyprojectBak = some env.manifest
    ∧ (pipeline env).pyproject = some (patchManifest (sdkDirOf env) env.manifest) := by
  by_cases hu : usageReject env
  · rw [(pipeline_usage env hu).1] at h
    simp at h
  · rw [pipeline_eq_body env hu] at h ⊢
    unfold pipelineBody at h ⊢
    dsimp only at h ⊢
    by_cases h0 : env.outputExists = true ∧ env.rmExit ≠ 0
    · rw [if_pos h0] at h ⊢
      exact absurd h (runPatch_not_mem_preTrace env)
    · rw [if_neg h0] at h ⊢
      by_cases h1 : env.installSdkExit ≠ 0
      · rw [if_pos h1] at h ⊢
        exfalso
        rcases List.mem_append.mp h with h2 | h2
        · exact runPatch_not_mem_preTrace env h2
        · simp at h2
      · rw [if_neg h1] at h ⊢
        by_cases h2c : env.installDepsExit ≠ 0
        · rw [if_pos h2c] at h ⊢
          exfalso
          rcases List.mem_append.mp h with h2 | h2
          · exact runPatch_not_mem_preTrace env h2
          · simp at h2
        · rw [if_neg h2c] at h ⊢
          by_cases h3 : env.cookiecutterExit ≠ 0
          · rw [if_pos h3] at h ⊢
            exfalso
            rcases List.mem_append.mp h with h2 | h2
            · exact runPatch_not_mem_preTrace env h2
            · simp at h2
          · rw [if_neg h3] at h ⊢
            exact ⟨(postPatch_fields env _ _).2, (postPatch_fields env _ _).1⟩

/-- Witness for C10, at the default successful run. -/
theorem patch_backup_witness :
    (pipeline (envWithArgs [])).pyprojectBak = some (envWithArgs []).manifest
    ∧ (pipeline (envWithArgs [])).pyproject
        = some (patchManifest (sdkDirOf (envWithArgs [])) (envWithArgs []).manifest) :=
  patch_backup (envWithArgs []) (by decide)

end CookiecutterPipeline
